import Mathlib

/-!
Shallow embedding of the RetroGames game-logic core: the Vector2/Rectangle
math, the Entity data (position, size, active flag) and the two game state
machines (SpaceInvadersGame, FlappyBirdGame).  Floats of the C++ source are
modelled as exact rationals; the random gap value drawn in
FlappyBirdGame::spawnPipe is passed to update as an explicit argument.
-/

namespace RetroGames

/-- core/math.hpp Vector2: an (x, y) pair. -/
structure Vector2 where
  x : ℚ
  y : ℚ
deriving DecidableEq, Repr

/-- Vector2::operator+ -/
def Vector2.add (a b : Vector2) : Vector2 := ⟨a.x + b.x, a.y + b.y⟩

/-- Vector2::operator* (scalar) -/
def Vector2.smul (a : Vector2) (s : ℚ) : Vector2 := ⟨a.x * s, a.y * s⟩

/-- core/math.hpp Rectangle: center position plus full size. -/
structure Rectangle where
  pos : Vector2
  size : Vector2
deriving DecidableEq, Repr

/-- Rectangle::intersects: not separated along either axis. -/
def Rectangle.intersects (a b : Rectangle) : Bool :=
  !(decide (a.pos.x + a.size.x / 2 < b.pos.x - b.size.x / 2) ||
    decide (a.pos.x - a.size.x / 2 > b.pos.x + b.size.x / 2) ||
    decide (a.pos.y + a.size.y / 2 < b.pos.y - b.size.y / 2) ||
    decide (a.pos.y - a.size.y / 2 > b.pos.y + b.size.y / 2))

/-- core/game.hpp GameState. -/
inductive GameState where
  | Menu
  | Playing
  | Paused
  | GameOver
deriving DecidableEq, Repr

/-- The slice of core/input.hpp InputManager the games read during update. -/
structure Input where
  shootJustPressed : Bool
  horizontalAxis : ℚ
deriving DecidableEq, Repr

/-! ### Flappy Bird entities (games/flappy_bird/flappy_bird.hpp) -/

/-- Bird: position, size, vertical velocity, active flag. -/
structure Bird where
  pos : Vector2
  size : Vector2
  velocity_y : ℚ
  active : Bool
deriving DecidableEq, Repr

/-- Bird::GRAVITY -/
def Bird.GRAVITY : ℚ := -800

/-- Bird::JUMP_STRENGTH -/
def Bird.JUMP_STRENGTH : ℚ := 350

/-- Bird() constructor: Entity({100, 300}, {20, 20}), velocity 0. -/
def Bird.init : Bird :=
  { pos := ⟨100, 300⟩, size := ⟨20, 20⟩, velocity_y := 0, active := true }

/-- Bird::update: gravity, then position, then sequential floor and
ceiling clamps that zero the velocity. -/
def Bird.update (dt : ℚ) (b : Bird) : Bird :=
  let v := b.velocity_y + Bird.GRAVITY * dt
  let y := b.pos.y + v * dt
  let y1 := if y < b.size.y / 2 then b.size.y / 2 else y
  let v1 := if y < b.size.y / 2 then 0 else v
  let y2 := if y1 > 600 - b.size.y / 2 then 600 - b.size.y / 2 else y1
  let v2 := if y1 > 600 - b.size.y / 2 then 0 else v1
  { b with pos := ⟨b.pos.x, y2⟩, velocity_y := v2 }

/-- Bird::jump -/
def Bird.jump (b : Bird) : Bird := { b with velocity_y := Bird.JUMP_STRENGTH }

/-- Bird::isOnGround -/
def Bird.isOnGround (b : Bird) : Bool := decide (b.pos.y ≤ b.size.y / 2 + 1)

/-- Pipe: position, size, gap center, scored and active flags. -/
structure Pipe where
  pos : Vector2
  size : Vector2
  gap_center_y : ℚ
  scored : Bool
  active : Bool
deriving DecidableEq, Repr

/-- Pipe::WIDTH -/
def Pipe.WIDTH : ℚ := 60

/-- Pipe::GAP_SIZE -/
def Pipe.GAP_SIZE : ℚ := 150

/-- Pipe(x, gap_y) constructor: Entity({x, 300}, {WIDTH, 600}). -/
def Pipe.init (x gap_y : ℚ) : Pipe :=
  { pos := ⟨x, 300⟩, size := ⟨Pipe.WIDTH, 600⟩, gap_center_y := gap_y,
    scored := false, active := true }

/-- Pipe::update: move left at 150 units per second, deactivate once fully
off the left edge. -/
def Pipe.update (dt : ℚ) (p : Pipe) : Pipe :=
  let x := p.pos.x - 150 * dt
  { p with pos := ⟨x, p.pos.y⟩,
           active := if x < -p.size.x / 2 then false else p.active }

/-- Pipe::checkCollision: false when horizontally separated from the bird,
otherwise colliding unless the bird's vertical extent lies in the gap. -/
def Pipe.checkCollision (p : Pipe) (b : Bird) : Bool :=
  if b.pos.x + b.size.x / 2 < p.pos.x - p.size.x / 2 ∨
     b.pos.x - b.size.x / 2 > p.pos.x + p.size.x / 2 then
    false
  else
    let gap_top := p.gap_center_y + Pipe.GAP_SIZE / 2
    let gap_bottom := p.gap_center_y - Pipe.GAP_SIZE / 2
    decide (b.pos.y + b.size.y / 2 > gap_top) ||
    decide (b.pos.y - b.size.y / 2 < gap_bottom)

/-- Pipe::isPastBird: not yet scored and fully past the bird's left edge. -/
def Pipe.isPastBird (p : Pipe) (b : Bird) : Bool :=
  !p.scored && decide (p.pos.x + p.size.x / 2 < b.pos.x - b.size.x / 2)

/-! ### FlappyBirdGame -/

/-- FlappyBirdGame fields (the mt19937 generator is modelled as the
external gap argument of update). -/
structure FlappyBirdGame where
  bird : Bird
  pipes : List Pipe
  state : GameState
  pipe_spawn_timer : ℚ
  score : ℤ
deriving DecidableEq, Repr

/-- FlappyBirdGame::spawnPipe with the sampled gap value made explicit. -/
def FlappyBirdGame.spawnPipe (gap_y : ℚ) (g : FlappyBirdGame) : FlappyBirdGame :=
  { g with pipes := g.pipes ++ [Pipe.init 850 gap_y] }

/-- The pipe loop of FlappyBirdGame::checkCollisions.  Returns the pipe
list after the pass, the score added, and whether a collision caused the
early return (the colliding pipe and every pipe after it are untouched). -/
def fbCollLoop (bird : Bird) : List Pipe → List Pipe × ℤ × Bool
  | [] => ([], 0, false)
  | p :: rest =>
    if p.checkCollision bird then (p :: rest, 0, true)
    else
      let p1 := if p.isPastBird bird then { p with scored := true } else p
      let d : ℤ := if p.isPastBird bird then 1 else 0
      let r := fbCollLoop bird rest
      (p1 :: r.1, d + r.2.1, r.2.2)

/-- FlappyBirdGame::checkCollisions: the pipe loop (early return on the
first colliding pipe), then the ground/ceiling check. -/
def FlappyBirdGame.checkCollisions (g : FlappyBirdGame) : FlappyBirdGame :=
  let r := fbCollLoop g.bird g.pipes
  if r.2.2 then
    { g with pipes := r.1, score := g.score + r.2.1, state := .GameOver }
  else
    let g1 : FlappyBirdGame := { g with pipes := r.1, score := g.score + r.2.1 }
    if g1.bird.isOnGround || decide (g1.bird.pos.y ≥ 600 - g1.bird.size.y / 2) then
      { g1 with state := .GameOver }
    else g1

/-- FlappyBirdGame::cleanupPipes: erase the inactive pipes. -/
def FlappyBirdGame.cleanupPipes (g : FlappyBirdGame) : FlappyBirdGame :=
  { g with pipes := g.pipes.filter (fun p => p.active) }

/-- FlappyBirdGame::reset. -/
def FlappyBirdGame.reset (g : FlappyBirdGame) : FlappyBirdGame :=
  { g with state := .Playing, score := 0, pipe_spawn_timer := 0,
           bird := Bird.init, pipes := [] }

/-- The state built by the FlappyBirdGame constructor (which calls reset). -/
def FlappyBirdGame.start : FlappyBirdGame :=
  { bird := Bird.init, pipes := [], state := .Playing,
    pipe_spawn_timer := 0, score := 0 }

/-- FlappyBirdGame::update.  gap is the value the mt19937 distribution
would produce if a pipe spawns this frame. -/
def FlappyBirdGame.update (dt : ℚ) (input : Input) (gap : ℚ)
    (g : FlappyBirdGame) : FlappyBirdGame :=
  if g.state = .Playing then
    let b := if input.shootJustPressed then g.bird.jump else g.bird
    let b := b.update dt
    let g1 : FlappyBirdGame := { g with bird := b }
    let t := g1.pipe_spawn_timer + dt
    let g2 :=
      if t > 5 / 2 then { g1.spawnPipe gap with pipe_spawn_timer := 0 }
      else { g1 with pipe_spawn_timer := t }
    let g3 : FlappyBirdGame := { g2 with pipes := g2.pipes.map (Pipe.update dt) }
    g3.checkCollisions.cleanupPipes
  else if g.state = .GameOver then
    if input.shootJustPressed then g.reset else g
  else g

/-! ### Space Invaders entities (games/space_invaders/space_invaders.hpp) -/

/-- Player: position, size, velocity, fire cooldown, active flag. -/
structure Player where
  pos : Vector2
  size : Vector2
  velocity : Vector2
  fire_cooldown : ℚ
  active : Bool
deriving DecidableEq, Repr

/-- Player(screen_width) constructor: Entity({w/2, 50}, {20, 20}). -/
def Player.init (screen_width : ℚ) : Player :=
  { pos := ⟨screen_width / 2, 50⟩, size := ⟨20, 20⟩, velocity := ⟨0, 0⟩,
    fire_cooldown := 0, active := true }

/-- Player::update: integrate, clamp x to the screen, decrement the fire
cooldown floored at 0. -/
def Player.update (dt : ℚ) (p : Player) : Player :=
  let pos1 := p.pos.add (p.velocity.smul dt)
  let x1 := if pos1.x < p.size.x / 2 then p.size.x / 2 else pos1.x
  let x2 := if x1 > 800 - p.size.x / 2 then 800 - p.size.x / 2 else x1
  { p with pos := ⟨x2, pos1.y⟩, fire_cooldown := max 0 (p.fire_cooldown - dt) }

/-- Player::canFire -/
def Player.canFire (p : Player) : Bool := decide (p.fire_cooldown ≤ 0)

/-- Player::fired -/
def Player.fired (p : Player) : Player := { p with fire_cooldown := 1 / 5 }

/-- Invader: position, size, velocity, active flag. -/
structure Invader where
  pos : Vector2
  size : Vector2
  velocity : Vector2
  active : Bool
deriving DecidableEq, Repr

/-- Invader(position) constructor: size {15, 15}, velocity {20, 0}. -/
def Invader.init (position : Vector2) : Invader :=
  { pos := position, size := ⟨15, 15⟩, velocity := ⟨20, 0⟩, active := true }

/-- Invader::update -/
def Invader.update (dt : ℚ) (i : Invader) : Invader :=
  { i with pos := i.pos.add (i.velocity.smul dt) }

/-- Bullet: position, size, velocity, ownership and active flag. -/
structure Bullet where
  pos : Vector2
  size : Vector2
  velocity : Vector2
  is_player_bullet : Bool
  active : Bool
deriving DecidableEq, Repr

/-- Bullet(position, vel, player_bullet) constructor: size {2, 5}. -/
def Bullet.init (position vel : Vector2) (player_bullet : Bool) : Bullet :=
  { pos := position, size := ⟨2, 5⟩, velocity := vel,
    is_player_bullet := player_bullet, active := true }

/-- Bullet::update: integrate and deactivate once y leaves [0, 600]. -/
def Bullet.update (dt : ℚ) (b : Bullet) : Bullet :=
  let p := b.pos.add (b.velocity.smul dt)
  { b with pos := p, active := if p.y < 0 ∨ p.y > 600 then false else b.active }

/-- Entity::collidesWith for a bullet against an invader: Rectangle
intersection of the two bounds. -/
def Bullet.collidesWith (b : Bullet) (i : Invader) : Bool :=
  Rectangle.intersects ⟨b.pos, b.size⟩ ⟨i.pos, i.size⟩

/-! ### SpaceInvadersGame -/

/-- SpaceInvadersGame::createInvaders: a 5-row by 10-column grid. -/
def createInvaders : List Invader :=
  (List.range 5).flatMap (fun row =>
    (List.range 10).map (fun col =>
      Invader.init ⟨50 + (col : ℚ) * 60, 600 - 100 - (row : ℚ) * 30⟩))

/-- SpaceInvadersGame fields. -/
structure SpaceInvadersGame where
  player : Player
  invaders : List Invader
  bullets : List Bullet
  state : GameState
  invader_move_timer : ℚ
  invader_direction : ℤ
  score : ℤ
deriving DecidableEq, Repr

/-- Player-movement phase of SpaceInvadersGame::update: set the horizontal
velocity from the input axis and run Player::update. -/
def SpaceInvadersGame.stepPlayer (dt : ℚ) (input : Input)
    (g : SpaceInvadersGame) : SpaceInvadersGame :=
  let p1 : Player :=
    { g.player with velocity := ⟨input.horizontalAxis * 200, g.player.velocity.y⟩ }
  { g with player := Player.update dt p1 }

/-- The bullet the shooting phase spawns: at the player's top edge, moving
upward at 300. -/
def Player.spawnBullet (p : Player) : Bullet :=
  Bullet.init (p.pos.add ⟨0, p.size.y / 2⟩) ⟨0, 300⟩ true

/-- Shooting phase of SpaceInvadersGame::update: on an edge-triggered
press with the cooldown expired, push a new bullet and reset the cooldown. -/
def SpaceInvadersGame.handleShooting (input : Input)
    (g : SpaceInvadersGame) : SpaceInvadersGame :=
  if input.shootJustPressed && g.player.canFire then
    { g with bullets := g.bullets ++ [g.player.spawnBullet],
             player := g.player.fired }
  else g

/-- Entity-integration phase of SpaceInvadersGame::update: every bullet and
every invader runs its own update. -/
def SpaceInvadersGame.stepEntities (dt : ℚ)
    (g : SpaceInvadersGame) : SpaceInvadersGame :=
  { g with bullets := g.bullets.map (Bullet.update dt),
           invaders := g.invaders.map (Invader.update dt) }

/-- SpaceInvadersGame::updateInvaders: the time-gated formation step, edge
detection, direction reversal with a 10-unit drop, and the reached-player
GameOver check. -/
def SpaceInvadersGame.updateInvaders (dt : ℚ)
    (g : SpaceInvadersGame) : SpaceInvadersGame :=
  let t := g.invader_move_timer + dt
  if t > 1 then
    let moved := g.invaders.map (fun i =>
      if i.active then { i with pos := ⟨i.pos.x + i.velocity.x, i.pos.y⟩ } else i)
    let change := moved.any (fun i =>
      i.active && (decide (i.pos.x < 20) || decide (i.pos.x > 780)))
    if change then
      let dir := -g.invader_direction
      let dropped := moved.map (fun i =>
        if i.active then
          { i with velocity := ⟨20 * (dir : ℚ), i.velocity.y⟩,
                   pos := ⟨i.pos.x, i.pos.y - 10⟩ }
        else i)
      let over := dropped.any (fun i => i.active && decide (i.pos.y ≤ 70))
      { g with invaders := dropped, invader_move_timer := 0,
               invader_direction := dir,
               state := if over then .GameOver else g.state }
    else
      { g with invaders := moved, invader_move_timer := 0 }
  else
    { g with invader_move_timer := t }

/-- The bullets-versus-invaders loop of SpaceInvadersGame::checkCollisions,
inner loop: the first active invader the bullet collides with is
deactivated; none means no hit. -/
def hitInvader (b : Bullet) : List Invader → Option (List Invader)
  | [] => none
  | i :: rest =>
    if i.active && b.collidesWith i then some ({ i with active := false } :: rest)
    else
      match hitInvader b rest with
      | none => none
      | some rest2 => some (i :: rest2)

/-- The bullets-versus-invaders loop of SpaceInvadersGame::checkCollisions:
returns the bullet list, the invader list and the score added. -/
def siCollLoop : List Bullet → List Invader → List Bullet × List Invader × ℤ
  | [], invs => ([], invs, 0)
  | b :: bs, invs =>
    if !b.active || !b.is_player_bullet then
      let r := siCollLoop bs invs
      (b :: r.1, r.2.1, r.2.2)
    else
      match hitInvader b invs with
      | none =>
        let r := siCollLoop bs invs
        (b :: r.1, r.2.1, r.2.2)
      | some invs2 =>
        let r := siCollLoop bs invs2
        ({ b with active := false } :: r.1, r.2.1, 10 + r.2.2)

/-- SpaceInvadersGame::checkCollisions: the bullet loop, then the
respawn-wave check when no invader remains active. -/
def SpaceInvadersGame.checkCollisions (g : SpaceInvadersGame) : SpaceInvadersGame :=
  let r := siCollLoop g.bullets g.invaders
  let g1 : SpaceInvadersGame :=
    { g with bullets := r.1, invaders := r.2.1, score := g.score + r.2.2 }
  if r.2.1.any (fun i => i.active) then g1
  else { g1 with invaders := createInvaders }

/-- SpaceInvadersGame::cleanupEntities: erase inactive bullets and
invaders. -/
def SpaceInvadersGame.cleanupEntities (g : SpaceInvadersGame) : SpaceInvadersGame :=
  { g with bullets := g.bullets.filter (fun b => b.active),
           invaders := g.invaders.filter (fun i => i.active) }

/-- SpaceInvadersGame::reset. -/
def SpaceInvadersGame.reset (g : SpaceInvadersGame) : SpaceInvadersGame :=
  { g with state := .Playing, score := 0, invader_move_timer := 0,
           invader_direction := 1, player := Player.init 800,
           bullets := [], invaders := createInvaders }

/-- The state built by the SpaceInvadersGame constructor (which calls
reset). -/
def SpaceInvadersGame.start : SpaceInvadersGame :=
  { player := Player.init 800, invaders := createInvaders, bullets := [],
    state := .Playing, invader_move_timer := 0, invader_direction := 1,
    score := 0 }

/-- SpaceInvadersGame::update: early return unless Playing, then the
phases in source order. -/
def SpaceInvadersGame.update (dt : ℚ) (input : Input)
    (g : SpaceInvadersGame) : SpaceInvadersGame :=
  if g.state = .Playing then
    (((((g.stepPlayer dt input).handleShooting input).stepEntities
        dt).updateInvaders dt).checkCollisions).cleanupEntities
  else g

/-- A per-frame input/step record: the dt and input of one update call
(and the gap value for Flappy Bird frames). -/
def SpaceInvadersGame.updateSeq (fs : List (ℚ × Input))
    (g : SpaceInvadersGame) : SpaceInvadersGame :=
  fs.foldl (fun h f => h.update f.1 f.2) g

/-! ### Reachable states -/

/-- States a FlappyBirdGame object can be in: the constructor state,
closed under update and reset. -/
inductive FBReachable : FlappyBirdGame → Prop
  | start : FBReachable FlappyBirdGame.start
  | step (dt : ℚ) (input : Input) (gap : ℚ) {g : FlappyBirdGame} :
      FBReachable g → FBReachable (g.update dt input gap)
  | reset {g : FlappyBirdGame} : FBReachable g → FBReachable g.reset

/-- States a SpaceInvadersGame object can be in: the constructor state,
closed under update and reset. -/
inductive SIReachable : SpaceInvadersGame → Prop
  | start : SIReachable SpaceInvadersGame.start
  | step (dt : ℚ) (input : Input) {g : SpaceInvadersGame} :
      SIReachable g → SIReachable (g.update dt input)
  | reset {g : SpaceInvadersGame} : SIReachable g → SIReachable g.reset

/-! ### Concrete states used below -/

/-- A pipe horizontally overlapping the default bird whose gap excludes
the bird's vertical extent. -/
def pipeColliding : Pipe :=
  { pos := ⟨100, 300⟩, size := ⟨60, 600⟩, gap_center_y := 150,
    scored := false, active := true }

/-- An unscored pipe fully past the default bird's left edge. -/
def pipePast : Pipe :=
  { pos := ⟨40, 300⟩, size := ⟨60, 600⟩, gap_center_y := 300,
    scored := false, active := true }

/-- A playing state holding a colliding pipe ahead of an unscored
fully-past pipe in the collection. -/
def fbC1State : FlappyBirdGame :=
  { bird := Bird.init, pipes := [pipeColliding, pipePast], state := .Playing,
    pipe_spawn_timer := 0, score := 0 }

/-- A playing state whose only pipe is an unscored fully-past pipe. -/
def fbPastOnly : FlappyBirdGame :=
  { bird := Bird.init, pipes := [pipePast], state := .Playing,
    pipe_spawn_timer := 0, score := 0 }

/-- A Flappy Bird game-over state carrying a positive score. -/
def fbGameOverScored : FlappyBirdGame :=
  { bird := Bird.init, pipes := [], state := .GameOver,
    pipe_spawn_timer := 0, score := 5 }

/-- The Space Invaders start state moved to GameOver. -/
def siGameOver : SpaceInvadersGame :=
  { SpaceInvadersGame.start with state := .GameOver }

/-- The Space Invaders start state with every invader destroyed. -/
def siEmptyInvaders : SpaceInvadersGame :=
  { SpaceInvadersGame.start with invaders := [] }

/-- The Space Invaders start state just after a shot (cooldown full). -/
def siCooldownFull : SpaceInvadersGame :=
  { SpaceInvadersGame.start with player := (Player.init 800).fired }

/-! ### Small projection lemmas -/

lemma Bird.update_pos_x (dt : ℚ) (b : Bird) : (b.update dt).pos.x = b.pos.x := rfl

lemma Bird.jump_pos (b : Bird) : b.jump.pos = b.pos := rfl

lemma fb_cleanupPipes_bird (g : FlappyBirdGame) : g.cleanupPipes.bird = g.bird := rfl

lemma fb_cleanupPipes_score (g : FlappyBirdGame) : g.cleanupPipes.score = g.score := rfl

lemma fb_cleanupPipes_state (g : FlappyBirdGame) : g.cleanupPipes.state = g.state := rfl

lemma fb_checkCollisions_bird (g : FlappyBirdGame) : g.checkCollisions.bird = g.bird := by
  simp only [FlappyBirdGame.checkCollisions]
  split
  · rfl
  · split <;> rfl

lemma fb_checkCollisions_score (g : FlappyBirdGame) :
    g.checkCollisions.score = g.score + (fbCollLoop g.bird g.pipes).2.1 := by
  simp only [FlappyBirdGame.checkCollisions]
  split
  · rfl
  · split <;> rfl

lemma si_stepPlayer_score (dt : ℚ) (input : Input) (g : SpaceInvadersGame) :
    (g.stepPlayer dt input).score = g.score := rfl

lemma si_handleShooting_score (input : Input) (g : SpaceInvadersGame) :
    (g.handleShooting input).score = g.score := by
  unfold SpaceInvadersGame.handleShooting
  split <;> rfl

lemma si_stepEntities_score (dt : ℚ) (g : SpaceInvadersGame) :
    (g.stepEntities dt).score = g.score := rfl

lemma si_updateInvaders_score (dt : ℚ) (g : SpaceInvadersGame) :
    (g.updateInvaders dt).score = g.score := by
  simp only [SpaceInvadersGame.updateInvaders]
  split
  · split <;> rfl
  · rfl

lemma si_checkCollisions_score (g : SpaceInvadersGame) :
    g.checkCollisions.score = g.score + (siCollLoop g.bullets g.invaders).2.2 := by
  simp only [SpaceInvadersGame.checkCollisions]
  split <;> rfl

lemma si_cleanupEntities_score (g : SpaceInvadersGame) :
    g.cleanupEntities.score = g.score := rfl

lemma si_stepEntities_player (dt : ℚ) (g : SpaceInvadersGame) :
    (g.stepEntities dt).player = g.player := rfl

lemma si_updateInvaders_player (dt : ℚ) (g : SpaceInvadersGame) :
    (g.updateInvaders dt).player = g.player := by
  simp only [SpaceInvadersGame.updateInvaders]
  split
  · split <;> rfl
  · rfl

lemma si_checkCollisions_player (g : SpaceInvadersGame) :
    g.checkCollisions.player = g.player := by
  simp only [SpaceInvadersGame.checkCollisions]
  split <;> rfl

lemma si_cleanupEntities_player (g : SpaceInvadersGame) :
    g.cleanupEntities.player = g.player := rfl

/-- C6: Flappy Bird integration is Euler with gravity applied before
position: from y = 300, velocity 0, one update with dt = 1/10 and no jump
gives velocity −80 and y = 292; in general, when the integrated position
stays inside the floor/ceiling clamp window, Bird::update adds gravity
times dt to the velocity first and then velocity times dt to y. -/
theorem fb_bird_euler_integration :
    Bird.init.pos.y = 300 ∧ Bird.init.velocity_y = 0 ∧
    (Bird.init.update (1 / 10)).velocity_y = -80 ∧
    (Bird.init.update (1 / 10)).pos.y = 292 ∧
    (∀ (b : Bird) (dt : ℚ),
      b.size.y / 2 ≤ b.pos.y + (b.velocity_y + -800 * dt) * dt →
      b.pos.y + (b.velocity_y + -800 * dt) * dt ≤ 600 - b.size.y / 2 →
      (b.update dt).velocity_y = b.velocity_y + -800 * dt ∧
      (b.update dt).pos.y = b.pos.y + (b.velocity_y + -800 * dt) * dt) := by
  refine ⟨rfl, rfl, by with_unfolding_all decide, by with_unfolding_all decide, ?_⟩
  intro b dt h1 h2
  have hn1 : ¬ (b.pos.y + (b.velocity_y + -800 * dt) * dt < b.size.y / 2) := not_lt.mpr h1
  have hn2 : ¬ (b.pos.y + (b.velocity_y + -800 * dt) * dt > 600 - b.size.y / 2) := not_lt.mpr h2
  simp only [Bird.update, Bird.GRAVITY]
  rw [if_neg hn1, if_neg hn1, if_neg hn2, if_neg hn2]
  exact ⟨rfl, rfl⟩

/-- Witness for fb_bird_euler_integration at the bird's start state with
dt = 1/10. -/
theorem fb_bird_euler_integration_witness :
    (Bird.init.update (1 / 10)).velocity_y = Bird.init.velocity_y + -800 * (1 / 10) ∧
    (Bird.init.update (1 / 10)).pos.y =
      Bird.init.pos.y + (Bird.init.velocity_y + -800 * (1 / 10)) * (1 / 10) :=
  fb_bird_euler_integration.2.2.2.2 Bird.init (1 / 10) (by with_unfolding_all decide)
    (by with_unfolding_all decide)

/-- C7: reset() is idempotent for both games: both resets produce the same
canonical starting state, with score 0, state Playing, the player at
screen-width/2 with a fresh invader grid and no bullets, and the bird at
its start position with no pipes. -/
theorem reset_idempotent_both :
    (∀ g : SpaceInvadersGame, g.reset.reset = g.reset) ∧
    (∀ g : FlappyBirdGame, g.reset.reset = g.reset) ∧
    (∀ g : SpaceInvadersGame, g.reset = SpaceInvadersGame.start) ∧
    (∀ g : FlappyBirdGame, g.reset = FlappyBirdGame.start) ∧
    SpaceInvadersGame.start.score = 0 ∧
    SpaceInvadersGame.start.state = GameState.Playing ∧
    SpaceInvadersGame.start.player = Player.init 800 ∧
    SpaceInvadersGame.start.bullets = [] ∧
    SpaceInvadersGame.start.invaders = createInvaders ∧
    FlappyBirdGame.start.score = 0 ∧
    FlappyBirdGame.start.state = GameState.Playing ∧
    FlappyBirdGame.start.bird = Bird.init ∧
    FlappyBirdGame.start.pipes = [] :=
  ⟨fun _ => rfl, fun _ => rfl, fun _ => rfl, fun _ => rfl, rfl, rfl, rfl, rfl,
   rfl, rfl, rfl, rfl, rfl⟩

/-- C8: SpaceInvadersGame::update is a complete no-op whenever the state
is not Playing: the whole state, hence score, timers, direction, player
and both entity collections, is returned unchanged. -/
theorem si_update_noop_not_playing (g : SpaceInvadersGame) (dt : ℚ) (input : Input)
    (h : g.state ≠ GameState.Playing) : g.update dt input = g := by
  unfold SpaceInvadersGame.update
  rw [if_neg h]

/-- Witness for si_update_noop_not_playing at a GameOver state. -/
theorem si_update_noop_not_playing_witness :
    siGameOver.state ≠ GameState.Playing ∧
    siGameOver.update 1 ⟨true, 1⟩ = siGameOver :=
  ⟨by decide, si_update_noop_not_playing siGameOver 1 ⟨true, 1⟩ (by decide)⟩

lemma fbCollLoop_nil (bird : Bird) : fbCollLoop bird [] = ([], 0, false) := rfl

lemma fbCollLoop_cons_nocol {bird : Bird} {p : Pipe}
    (hc : p.checkCollision bird = false) (rest : List Pipe) :
    fbCollLoop bird (p :: rest) =
      ((if p.isPastBird bird then { p with scored := true } else p) ::
         (fbCollLoop bird rest).1,
       (if p.isPastBird bird then (1 : ℤ) else 0) + (fbCollLoop bird rest).2.1,
       (fbCollLoop bird rest).2.2) := by
  simp only [fbCollLoop, hc, Bool.false_eq_true, if_false]

lemma fbCollLoop_collides {bird : Bird} {p : Pipe} :
    ∀ {ps : List Pipe}, p ∈ ps → p.checkCollision bird = true →
      (fbCollLoop bird ps).2.2 = true := by
  intro ps
  induction ps with
  | nil => intro h _; cases h
  | cons q rest ih =>
    intro hmem hcol
    by_cases hq : q.checkCollision bird = true
    · simp [fbCollLoop, hq]
    · rw [fbCollLoop_cons_nocol (Bool.eq_false_iff.mpr hq) rest]
      rcases List.mem_cons.mp hmem with rfl | hmem2
      · exact absurd hcol hq
      · exact ih hmem2 hcol

lemma fb_checkCollisions_gameover {g : FlappyBirdGame} {p : Pipe}
    (hp : p ∈ g.pipes) (hc : p.checkCollision g.bird = true) :
    g.checkCollisions.state = GameState.GameOver := by
  simp only [FlappyBirdGame.checkCollisions]
  rw [if_pos (fbCollLoop_collides hp hc)]

/-- C2: after an update frame in the Playing state, every bullet and
invader of Space Invaders and every pipe of Flappy Bird remaining in its
owning collection is active: the frame's cleanup pass removed every entity
whose active flag became false, so such an entity takes no part in the
next frame. -/
theorem inactive_entities_removed (sg : SpaceInvadersGame) (fg : FlappyBirdGame)
    (dt1 dt2 gap : ℚ) (i1 i2 : Input)
    (h1 : sg.state = GameState.Playing) (h2 : fg.state = GameState.Playing) :
    ((∀ b ∈ (sg.update dt1 i1).bullets, b.active = true) ∧
     (∀ v ∈ (sg.update dt1 i1).invaders, v.active = true)) ∧
    (∀ p ∈ (fg.update dt2 i2 gap).pipes, p.active = true) := by
  unfold SpaceInvadersGame.update FlappyBirdGame.update
  rw [if_pos h1, if_pos h2]
  refine ⟨⟨?_, ?_⟩, ?_⟩ <;> intro e he
  · exact (List.mem_filter.mp he).2
  · exact (List.mem_filter.mp he).2
  · exact (List.mem_filter.mp he).2

/-- Witness for inactive_entities_removed at the two start states. -/
theorem inactive_entities_removed_witness :
    ((∀ b ∈ (SpaceInvadersGame.start.update 0 ⟨false, 0⟩).bullets, b.active = true) ∧
     (∀ v ∈ (SpaceInvadersGame.start.update 0 ⟨false, 0⟩).invaders, v.active = true)) ∧
    (∀ p ∈ (FlappyBirdGame.start.update 0 ⟨false, 0⟩ 300).pipes, p.active = true) :=
  inactive_entities_removed SpaceInvadersGame.start FlappyBirdGame.start
    0 0 300 ⟨false, 0⟩ ⟨false, 0⟩ rfl rfl

set_option maxRecDepth 8000 in
/-- C4: when the invader list carries no active invader after the bullet
loop, checkCollisions repopulates it with createInvaders: exactly 50
active invaders in a 5-row by 10-column grid with 60-unit horizontal and
30-unit vertical spacing at the fixed baseline offsets. -/
theorem si_wave_respawn (g : SpaceInvadersGame)
    (h : ∀ v ∈ (siCollLoop g.bullets g.invaders).2.1, v.active = false) :
    g.checkCollisions.invaders = createInvaders ∧
    createInvaders.length = 50 ∧
    (∀ v ∈ createInvaders, v.active = true) ∧
    (∀ row, row < 5 → ∀ col, col < 10 →
      createInvaders.get? (row * 10 + col) =
        some (Invader.init ⟨50 + (col : ℚ) * 60, 600 - 100 - (row : ℚ) * 30⟩)) := by
  refine ⟨?_, by with_unfolding_all decide, by with_unfolding_all decide,
    by with_unfolding_all decide⟩
  have hnc : ¬ ((siCollLoop g.bullets g.invaders).2.1.any fun i => i.active) = true := by
    intro hc
    rcases List.any_eq_true.mp hc with ⟨x, hx, hax⟩
    rw [h x hx] at hax
    cases hax
  simp only [SpaceInvadersGame.checkCollisions]
  rw [if_neg hnc]

/-- Witness for si_wave_respawn at the start state with all invaders
destroyed. -/
theorem si_wave_respawn_witness :
    (∀ v ∈ (siCollLoop siEmptyInvaders.bullets siEmptyInvaders.invaders).2.1,
      v.active = false) ∧
    siEmptyInvaders.checkCollisions.invaders = createInvaders :=
  ⟨by with_unfolding_all decide,
   (si_wave_respawn siEmptyInvaders (by with_unfolding_all decide)).1⟩

/-- C5: for a pipe with gap_center_y = 300 horizontally overlapping the
bird: a bird whose vertical extent lies inside [225, 375] does not collide
and the game state is unchanged by the collision pass; a bird whose
bottom edge is below 225 or whose top edge is above 375 collides and the
state becomes GameOver. -/
theorem fb_gap_bounds_spec (p : Pipe) (b : Bird)
    (hgap : p.gap_center_y = 300)
    (hov1 : p.pos.x - p.size.x / 2 ≤ b.pos.x + b.size.x / 2)
    (hov2 : b.pos.x - b.size.x / 2 ≤ p.pos.x + p.size.x / 2) :
    (225 ≤ b.pos.y - b.size.y / 2 → b.pos.y + b.size.y / 2 ≤ 375 →
      p.checkCollision b = false ∧
      ∀ g : FlappyBirdGame, g.bird = b → g.pipes = [p] →
        g.checkCollisions.state = g.state) ∧
    ((b.pos.y - b.size.y / 2 < 225 ∨ 375 < b.pos.y + b.size.y / 2) →
      p.checkCollision b = true ∧
      ∀ g : FlappyBirdGame, g.bird = b → p ∈ g.pipes →
        g.checkCollisions.state = GameState.GameOver) := by
  have hsep : ¬ (b.pos.x + b.size.x / 2 < p.pos.x - p.size.x / 2 ∨
      b.pos.x - b.size.x / 2 > p.pos.x + p.size.x / 2) := by
    push_neg
    exact ⟨hov1, hov2⟩
  constructor
  · intro h1 h2
    have hcf : p.checkCollision b = false := by
      simp only [Pipe.checkCollision, Pipe.GAP_SIZE, hgap, if_neg hsep]
      rw [Bool.or_eq_false_iff]
      constructor <;> rw [decide_eq_false_iff_not, not_lt] <;> linarith
    refine ⟨hcf, ?_⟩
    intro g hb hp
    have hflag : (fbCollLoop g.bird g.pipes).2.2 = false := by
      rw [hb, hp, fbCollLoop_cons_nocol hcf, fbCollLoop_nil]
    have hng : (g.bird.isOnGround ||
        decide (g.bird.pos.y ≥ 600 - g.bird.size.y / 2)) = false := by
      rw [hb]
      simp only [Bird.isOnGround, Bool.or_eq_false_iff, decide_eq_false_iff_not,
        not_le]
      constructor <;> linarith
    simp only [FlappyBirdGame.checkCollisions]
    rw [if_neg (by rw [hflag]; exact Bool.false_ne_true)]
    rw [if_neg (by rw [hng]; exact Bool.false_ne_true)]
  · intro hout
    have hct : p.checkCollision b = true := by
      simp only [Pipe.checkCollision, Pipe.GAP_SIZE, hgap, if_neg hsep]
      rw [Bool.or_eq_true]
      rcases hout with h | h
      · right; rw [decide_eq_true_eq]; linarith
      · left; rw [decide_eq_true_eq]; linarith
    refine ⟨hct, ?_⟩
    intro g hb hp
    exact fb_checkCollisions_gameover hp (by rw [hb]; exact hct)

/-- Witness for fb_gap_bounds_spec: the default bird inside the gap of an
overlapping pipe with gap center 300. -/
theorem fb_gap_bounds_spec_witness :
    (Pipe.init 100 300).checkCollision Bird.init = false ∧
    (∀ g : FlappyBirdGame, g.bird = Bird.init → g.pipes = [Pipe.init 100 300] →
      g.checkCollisions.state = g.state) :=
  (fb_gap_bounds_spec (Pipe.init 100 300) Bird.init (by with_unfolding_all decide)
      (by with_unfolding_all decide) (by with_unfolding_all decide)).1
    (by with_unfolding_all decide) (by with_unfolding_all decide)

lemma isPastBird_not_collide : ∀ (q : Pipe) (b : Bird),
    q.isPastBird b = true → q.checkCollision b = false := by
  intro q b h
  rw [Pipe.isPastBird, Bool.and_eq_true, decide_eq_true_eq] at h
  rw [Pipe.checkCollision, if_pos]
  right
  exact h.2

lemma fbCollLoop_append_nocol {bird : Bird} :
    ∀ (l1 l2 : List Pipe), (∀ p ∈ l1, p.checkCollision bird = false) →
      fbCollLoop bird (l1 ++ l2) =
        (l1.map (fun p => if p.isPastBird bird then { p with scored := true } else p)
           ++ (fbCollLoop bird l2).1,
         (l1.countP (fun p => p.isPastBird bird) : ℤ) + (fbCollLoop bird l2).2.1,
         (fbCollLoop bird l2).2.2) := by
  intro l1
  induction l1 with
  | nil =>
    intro l2 _
    simp only [List.nil_append, List.map_nil, List.countP_nil, Nat.cast_zero,
      zero_add]
  | cons p rest ih =>
    intro l2 h
    have hp : p.checkCollision bird = false := h p (List.mem_cons_self p rest)
    rw [List.cons_append, fbCollLoop_cons_nocol hp,
      ih l2 (fun q hq => h q (List.mem_cons_of_mem p hq))]
    simp only [List.map_cons, List.countP_cons, List.cons_append, Prod.mk.injEq]
    refine ⟨trivial, ?_, trivial⟩
    by_cases hpb : p.isPastBird bird = true
    · simp only [hpb, if_true]
      push_cast
      ring
    · simp only [hpb, if_false]
      push_cast
      ring

set_option maxRecDepth 8000 in
/-- C1 counterexample: within a single update frame (dt = 0, no input), a
colliding pipe placed earlier in the collection makes the collision pass
return before the scoring check of a later unscored fully-past pipe runs:
the frame ends with score still 0 and the past pipe still unscored, even
though that pipe was unscored and fully past the bird's left edge. -/
theorem fb_scoring_shortcircuit_cex :
    pipePast.scored = false ∧
    pipePast.isPastBird fbC1State.bird = true ∧
    pipeColliding.checkCollision fbC1State.bird = true ∧
    fbC1State.pipes = [pipeColliding, pipePast] ∧
    (fbC1State.update 0 ⟨false, 0⟩ 300).score = 0 ∧
    (fbC1State.update 0 ⟨false, 0⟩ 300).pipes.map Pipe.scored = [false, false] := by
  with_unfolding_all decide

/-- C1 amended: the collision check has short-circuit priority over the
scoring check: checkCollisions returns at the first colliding pipe, so
pipes after it are not scored that frame.  In a frame where no pipe
collides, every unscored pipe fully past the bird is marked scored and
adds 1 to the score; and a pipe fully past the bird never collides, so a
pipe's own scoring is independent of its own collision test. -/
theorem fb_scoring_corrected (g : FlappyBirdGame)
    (h : ∀ p ∈ g.pipes, p.checkCollision g.bird = false) :
    g.checkCollisions.pipes =
      g.pipes.map (fun p =>
        if p.isPastBird g.bird then { p with scored := true } else p) ∧
    g.checkCollisions.score =
      g.score + (g.pipes.countP (fun p => p.isPastBird g.bird) : ℤ) ∧
    (∀ (q : Pipe) (b : Bird), q.isPastBird b = true → q.checkCollision b = false) := by
  have hloop := fbCollLoop_append_nocol g.pipes [] h
  rw [List.append_nil, fbCollLoop_nil] at hloop
  simp only [List.append_nil, add_zero] at hloop
  refine ⟨?_, ?_, isPastBird_not_collide⟩
  · simp only [FlappyBirdGame.checkCollisions, hloop, Bool.false_eq_true, if_false]
    split <;> rfl
  · simp only [FlappyBirdGame.checkCollisions, hloop, Bool.false_eq_true, if_false]
    split <;> rfl

/-- Witness for fb_scoring_corrected: a single fully-past pipe and no
colliding pipe. -/
theorem fb_scoring_corrected_witness :
    (∀ p ∈ fbPastOnly.pipes, p.checkCollision fbPastOnly.bird = false) ∧
    (fbPastOnly.checkCollisions.pipes =
      fbPastOnly.pipes.map (fun p =>
        if p.isPastBird fbPastOnly.bird then { p with scored := true } else p) ∧
     fbPastOnly.checkCollisions.score =
      fbPastOnly.score +
        (fbPastOnly.pipes.countP (fun p => p.isPastBird fbPastOnly.bird) : ℤ)) :=
  ⟨by with_unfolding_all decide,
   (fb_scoring_corrected fbPastOnly (by with_unfolding_all decide)).1,
   (fb_scoring_corrected fbPastOnly (by with_unfolding_all decide)).2.1⟩

lemma fb_update_bird (dt : ℚ) (input : Input) (gap : ℚ) (g : FlappyBirdGame)
    (h : g.state = GameState.Playing) :
    (g.update dt input gap).bird =
      (if input.shootJustPressed then g.bird.jump else g.bird).update dt := by
  dsimp only [FlappyBirdGame.update]
  rw [if_pos h, fb_cleanupPipes_bird, fb_checkCollisions_bird]
  split <;> rfl

/-- C9: in every reachable FlappyBirdGame state the bird's horizontal
position is the constant 100: Bird::update and jump never change pos.x
and reset recreates the bird at x = 100. -/
theorem fb_bird_x_invariant (g : FlappyBirdGame) (h : FBReachable g) :
    g.bird.pos.x = 100 := by
  induction h with
  | start => rfl
  | step dt input gap hg ih =>
    rename_i g0
    by_cases hp : g0.state = GameState.Playing
    · rw [fb_update_bird dt input gap g0 hp, Bird.update_pos_x]
      split
      · rw [Bird.jump_pos]
        exact ih
      · exact ih
    · unfold FlappyBirdGame.update
      rw [if_neg hp]
      split
      · split
        · rfl
        · exact ih
      · exact ih
  | reset hg ih => rfl

/-- Witness for fb_bird_x_invariant at the reachable start state. -/
theorem fb_bird_x_invariant_witness : FlappyBirdGame.start.bird.pos.x = 100 :=
  fb_bird_x_invariant FlappyBirdGame.start FBReachable.start

/-! ### Score lemmas -/

lemma fbCollLoop_delta_nonneg (bird : Bird) :
    ∀ ps : List Pipe, 0 ≤ (fbCollLoop bird ps).2.1 := by
  intro ps
  induction ps with
  | nil => exact le_refl 0
  | cons p rest ih =>
    simp only [fbCollLoop]
    split
    · exact le_refl 0
    · have hd : (0 : ℤ) ≤ if p.isPastBird bird then 1 else 0 := by
        split <;> norm_num
      dsimp only
      linarith

lemma siCollLoop_delta : ∀ (bs : List Bullet) (invs : List Invader),
    0 ≤ (siCollLoop bs invs).2.2 ∧ (10 : ℤ) ∣ (siCollLoop bs invs).2.2 := by
  intro bs
  induction bs with
  | nil => intro invs; exact ⟨le_refl 0, dvd_zero 10⟩
  | cons b rest ih =>
    intro invs
    simp only [siCollLoop]
    split
    · exact ih invs
    · split
      · exact ih invs
      · rename_i invs2 _
        obtain ⟨h1, h2⟩ := ih invs2
        constructor
        · dsimp only
          linarith
        · exact dvd_add (dvd_refl 10) h2

lemma si_pipeline_score (g : SpaceInvadersGame) (dt : ℚ) (input : Input) :
    (((((g.stepPlayer dt input).handleShooting input).stepEntities
        dt).updateInvaders dt).checkCollisions).cleanupEntities.score =
      g.score +
        (siCollLoop
          ((((g.stepPlayer dt input).handleShooting input).stepEntities
              dt).updateInvaders dt).bullets
          ((((g.stepPlayer dt input).handleShooting input).stepEntities
              dt).updateInvaders dt).invaders).2.2 := by
  rw [si_cleanupEntities_score, si_checkCollisions_score, si_updateInvaders_score,
    si_stepEntities_score, si_handleShooting_score, si_stepPlayer_score]

lemma si_update_score_delta (g : SpaceInvadersGame) (dt : ℚ) (input : Input) :
    ∃ d : ℤ, 0 ≤ d ∧ (10 : ℤ) ∣ d ∧ (g.update dt input).score = g.score + d := by
  unfold SpaceInvadersGame.update
  split
  · exact ⟨_, (siCollLoop_delta _ _).1, (siCollLoop_delta _ _).2,
      si_pipeline_score g dt input⟩
  · exact ⟨0, le_refl 0, dvd_zero 10, by rw [add_zero]⟩

lemma fb_checkCleanup_score_mono (g : FlappyBirdGame) :
    g.score ≤ g.checkCollisions.cleanupPipes.score := by
  rw [fb_cleanupPipes_score, fb_checkCollisions_score]
  linarith [fbCollLoop_delta_nonneg g.bird g.pipes]

lemma fb_update_score_cases (g : FlappyBirdGame) (dt : ℚ) (input : Input)
    (gap : ℚ) :
    g.score ≤ (g.update dt input gap).score ∨
    (g.state = GameState.GameOver ∧ input.shootJustPressed = true ∧
      (g.update dt input gap).score = 0) := by
  unfold FlappyBirdGame.update
  split
  · left
    dsimp only
    refine le_trans ?_ (fb_checkCleanup_score_mono _)
    split <;> exact le_refl _
  · split
    · split
      · right
        exact ⟨by assumption, by assumption, rfl⟩
      · left
        exact le_refl _
    · left
      exact le_refl _

lemma si_score_invariant (g : SpaceInvadersGame) (h : SIReachable g) :
    0 ≤ g.score ∧ (10 : ℤ) ∣ g.score := by
  induction h with
  | start => exact ⟨le_refl 0, dvd_zero 10⟩
  | step dt input hg ih =>
    rename_i g0
    obtain ⟨d, hd0, hdvd, heq⟩ := si_update_score_delta g0 dt input
    rw [heq]
    exact ⟨by linarith [ih.1], dvd_add ih.2 hdvd⟩
  | reset hg ih => exact ⟨le_refl 0, dvd_zero 10⟩

lemma fb_score_invariant (g : FlappyBirdGame) (h : FBReachable g) :
    0 ≤ g.score := by
  induction h with
  | start => exact le_refl 0
  | step dt input gap hg ih =>
    rename_i g0
    rcases fb_update_score_cases g0 dt input gap with hle | ⟨_, _, hz⟩
    · linarith
    · rw [hz]
  | reset hg ih => exact le_refl 0

/-- C10 counterexample: a Flappy Bird update call in the GameOver state
with an edge-triggered shoot press invokes reset and drops the score from
5 to 0, so the score does decrease across an update(dt, input) call. -/
theorem fb_score_decrease_cex :
    fbGameOverScored.state = GameState.GameOver ∧
    fbGameOverScored.score = 5 ∧
    (fbGameOverScored.update 0 ⟨true, 0⟩ 300).score = 0 := by
  with_unfolding_all decide

/-- C10 amended: scores never decrease across update calls except the
Flappy Bird restart path (GameOver state with a shoot press), where update
invokes reset; on every reachable state the score is nonnegative, the
Space Invaders score is a multiple of 10 (only +10 per bullet-invader
hit), and reset returns the score to 0 in both games. -/
theorem score_monotone_amended :
    (∀ (g : SpaceInvadersGame) (dt : ℚ) (input : Input),
      g.score ≤ (g.update dt input).score) ∧
    (∀ g : SpaceInvadersGame, SIReachable g → 0 ≤ g.score ∧ (10 : ℤ) ∣ g.score) ∧
    (∀ (g : FlappyBirdGame) (dt gap : ℚ) (input : Input),
      ¬(g.state = GameState.GameOver ∧ input.shootJustPressed = true) →
      g.score ≤ (g.update dt input gap).score) ∧
    (∀ g : FlappyBirdGame, FBReachable g → 0 ≤ g.score) ∧
    (∀ g : SpaceInvadersGame, g.reset.score = 0) ∧
    (∀ g : FlappyBirdGame, g.reset.score = 0) := by
  refine ⟨?_, si_score_invariant, ?_, fb_score_invariant, fun g => rfl,
    fun g => rfl⟩
  · intro g dt input
    obtain ⟨d, hd0, _, heq⟩ := si_update_score_delta g dt input
    rw [heq]
    linarith
  · intro g dt gap input hno
    rcases fb_update_score_cases g dt input gap with hle | ⟨hgo, hsh, _⟩
    · exact hle
    · exact absurd ⟨hgo, hsh⟩ hno

/-- Witness for score_monotone_amended at the two start states. -/
theorem score_monotone_amended_witness :
    (0 ≤ SpaceInvadersGame.start.score ∧ (10 : ℤ) ∣ SpaceInvadersGame.start.score) ∧
    0 ≤ FlappyBirdGame.start.score ∧
    FlappyBirdGame.start.score ≤ (FlappyBirdGame.start.update 0 ⟨false, 0⟩ 300).score :=
  ⟨score_monotone_amended.2.1 SpaceInvadersGame.start SIReachable.start,
   score_monotone_amended.2.2.2.1 FlappyBirdGame.start FBReachable.start,
   score_monotone_amended.2.2.1 FlappyBirdGame.start 0 300 ⟨false, 0⟩
     (by with_unfolding_all decide)⟩

/-! ### Fire-cooldown lemmas -/

lemma si_stepPlayer_cooldown (g : SpaceInvadersGame) (dt : ℚ) (input : Input) :
    (g.stepPlayer dt input).player.fire_cooldown =
      max 0 (g.player.fire_cooldown - dt) := rfl

lemma si_update_cooldown (g : SpaceInvadersGame) (dt : ℚ) (input : Input)
    (hdt : 0 ≤ dt) (hle : g.player.fire_cooldown ≤ 1 / 5) :
    (g.update dt input).player.fire_cooldown ≤ 1 / 5 ∧
    g.player.fire_cooldown - dt ≤ (g.update dt input).player.fire_cooldown := by
  unfold SpaceInvadersGame.update
  split
  · rw [si_cleanupEntities_player, si_checkCollisions_player,
      si_updateInvaders_player, si_stepEntities_player]
    unfold SpaceInvadersGame.handleShooting
    split
    · constructor
      · exact le_refl (1 / 5 : ℚ)
      · show g.player.fire_cooldown - dt ≤ 1 / 5
        linarith
    · rw [si_stepPlayer_cooldown]
      constructor
      · exact max_le (by norm_num) (by linarith)
      · exact le_max_right 0 _
  · exact ⟨hle, by linarith⟩

lemma si_updateSeq_cooldown (fs : List (ℚ × Input)) :
    ∀ g : SpaceInvadersGame, (∀ f ∈ fs, 0 ≤ f.1) →
      g.player.fire_cooldown ≤ 1 / 5 →
      (g.updateSeq fs).player.fire_cooldown ≤ 1 / 5 ∧
      g.player.fire_cooldown - (fs.map Prod.fst).sum ≤
        (g.updateSeq fs).player.fire_cooldown := by
  induction fs with
  | nil =>
    intro g _ hle
    refine ⟨hle, ?_⟩
    rw [List.map_nil, List.sum_nil, sub_zero]
    exact le_refl _
  | cons f rest ih =>
    intro g hdt hle
    have h0 : 0 ≤ f.1 := hdt f (List.mem_cons_self f rest)
    have hstep := si_update_cooldown g f.1 f.2 h0 hle
    have hrest := ih (g.update f.1 f.2)
      (fun x hx => hdt x (List.mem_cons_of_mem f hx)) hstep.1
    refine ⟨hrest.1, ?_⟩
    rw [List.map_cons, List.sum_cons]
    have h1 := hstep.2
    have h2 := hrest.2
    show g.player.fire_cooldown - (f.1 + (rest.map Prod.fst).sum) ≤
      ((g.update f.1 f.2).updateSeq rest).player.fire_cooldown
    linarith

/-- C3: after a shot (fire cooldown at its full 0.2s), no shoot press
during a following frame sequence with nonnegative dt values summing
below 0.2 passes the canFire gate, so the shooting phase of each such
frame leaves the bullet list unchanged and no second bullet spawns; and a
shoot press when the cooldown is exactly 0 does append one new bullet in
the shooting phase. -/
theorem si_fire_cooldown_spec (g : SpaceInvadersGame) (fs : List (ℚ × Input))
    (hc : g.player.fire_cooldown = 1 / 5)
    (hdt : ∀ f ∈ fs, 0 ≤ f.1)
    (hsum : (fs.map Prod.fst).sum < 1 / 5) :
    (∀ fs1 f fs2, fs = fs1 ++ f :: fs2 →
      (((g.updateSeq fs1).stepPlayer f.1 f.2).handleShooting f.2).bullets =
        ((g.updateSeq fs1).stepPlayer f.1 f.2).bullets) ∧
    (∀ (g2 : SpaceInvadersGame) (dt : ℚ) (input : Input),
      g2.player.fire_cooldown = 0 → input.shootJustPressed = true → 0 ≤ dt →
      ((g2.stepPlayer dt input).handleShooting input).bullets =
        (g2.stepPlayer dt input).bullets ++
          [(g2.stepPlayer dt input).player.spawnBullet]) := by
  constructor
  · intro fs1 f fs2 hfs
    subst hfs
    have hdt1 : ∀ x ∈ fs1, 0 ≤ x.1 := fun x hx =>
      hdt x (List.mem_append_left _ hx)
    have h0 : 0 ≤ f.1 := hdt f (List.mem_append_right _ (List.mem_cons_self f fs2))
    have hs2 : 0 ≤ (fs2.map Prod.fst).sum := by
      refine List.sum_nonneg ?_
      intro x hx
      rcases List.mem_map.mp hx with ⟨y, hy, rfl⟩
      exact hdt y (List.mem_append_right _ (List.mem_cons_of_mem f hy))
    have hsplit : ((fs1 ++ f :: fs2).map Prod.fst).sum =
        (fs1.map Prod.fst).sum + (f.1 + (fs2.map Prod.fst).sum) := by
      rw [List.map_append, List.sum_append, List.map_cons, List.sum_cons]
    rw [hsplit] at hsum
    have hcool := si_updateSeq_cooldown fs1 g hdt1 (le_of_eq hc)
    rw [hc] at hcool
    have hpos : 0 < (g.updateSeq fs1).player.fire_cooldown - f.1 := by
      have := hcool.2
      linarith
    have hcan : ((g.updateSeq fs1).stepPlayer f.1 f.2).player.canFire = false := by
      show decide (((g.updateSeq fs1).stepPlayer f.1 f.2).player.fire_cooldown ≤ 0)
        = false
      rw [si_stepPlayer_cooldown, decide_eq_false_iff_not, not_le]
      exact lt_max_iff.mpr (Or.inr hpos)
    unfold SpaceInvadersGame.handleShooting
    rw [hcan, Bool.and_false, if_neg Bool.false_ne_true]
  · intro g2 dt input hcd hsh hdt0
    have hcool : (g2.stepPlayer dt input).player.fire_cooldown = 0 := by
      rw [si_stepPlayer_cooldown, hcd, zero_sub]
      exact max_eq_left (by linarith)
    have hcan : (g2.stepPlayer dt input).player.canFire = true := by
      show decide ((g2.stepPlayer dt input).player.fire_cooldown ≤ 0) = true
      rw [hcool, decide_eq_true_eq]
    unfold SpaceInvadersGame.handleShooting
    rw [hsh, hcan, Bool.and_self, if_pos rfl]

/-- Witness for si_fire_cooldown_spec: one pending 0.1s frame with a shoot
press right after a shot. -/
theorem si_fire_cooldown_spec_witness :
    siCooldownFull.player.fire_cooldown = 1 / 5 ∧
    (∀ fs1 f fs2,
      ([((1 : ℚ) / 10, (⟨true, 0⟩ : Input))] = fs1 ++ f :: fs2) →
      (((siCooldownFull.updateSeq fs1).stepPlayer f.1 f.2).handleShooting
          f.2).bullets =
        ((siCooldownFull.updateSeq fs1).stepPlayer f.1 f.2).bullets) :=
  ⟨rfl, (si_fire_cooldown_spec siCooldownFull [((1 : ℚ) / 10, ⟨true, 0⟩)] rfl
      (by with_unfolding_all decide) (by with_unfolding_all decide)).1⟩

end RetroGames
